import Mathlib

/-!
Shallow embedding of the KirkBot2 real-time performance monitor
(`real-time-performance-monitor.py`), restricted to the parts the
verified claims are about: the alert engine (`check_alerts` /
`create_alert`), the anomaly detector (`detect_anomalies`), the trend
predictor (`generate_predictive_alerts`), the endpoint collector
(`check_endpoint`) and the bounded metrics buffer (`add_metric`).

Modelling conventions:
* Python floats are modelled as exact rationals (`ℚ`).
* Timestamps are rationals measured in hours (the code converts seconds
  to hours by dividing by 3600; `timedelta(hours=1)` becomes `1`).
* Display-only values (f-string alert messages, the `metadata` dict)
  are not modelled; no claim mentions them.
* The Python `PerformanceAlert` dataclass has NO `source` field; the
  embedding mirrors this.  Evaluating `a.source` in `create_alert`'s
  dedup generator therefore raises `AttributeError`, modelled with
  `Except AttrError`.  The enclosing monitoring loops catch exceptions
  and keep the previous state, modelled by `monStep`.
-/

/-- The `PerformanceMetric` dataclass (fields used by the claims;
`metadata` is an opaque display-only dict and is not modelled). -/
structure Metric where
  timestamp : ℚ
  metric_type : String
  value : ℚ
  unit : String
  source : String
deriving DecidableEq, Repr

/-- The `PerformanceAlert` dataclass.  Faithful to the source: there is
no `source` field (the dedup check in `create_alert` nevertheless reads
one).  The f-string `message` field is display-only and not modelled. -/
structure Alert where
  alert_id : String
  metric_type : String
  severity : String
  threshold : ℚ
  current_value : ℚ
  timestamp : ℚ
  resolved : Bool
  resolved_at : Option ℚ
deriving DecidableEq, Repr

/-- Python `AttributeError`, raised when `create_alert` evaluates
`a.source` on a `PerformanceAlert` that has no such attribute. -/
inductive AttrError where
  | attributeError
deriving DecidableEq, Repr

/-- One entry of the `config["alerts"]` table: the `warning` /
`critical` bounds for a metric type.  The Python code reads them with
`thresholds.get("critical", float('inf'))`, so each bound is optional. -/
structure Thresholds where
  warning : Option ℚ
  critical : Option ℚ
deriving DecidableEq, Repr

/-- The default `config["alerts"]` table (source lines 131-137). -/
def defaultAlertThresholds : List (String × Thresholds) :=
  [ ("cpu_usage", ⟨some 70, some 90⟩)
  , ("memory_usage", ⟨some 75, some 90⟩)
  , ("response_time", ⟨some 2000, some 5000⟩)
  , ("error_rate", ⟨some 1, some 5⟩)
  , ("disk_usage", ⟨some 80, some 95⟩) ]

/-- The alert-engine state: the in-memory `self.alerts` list together
with the append-only log of database writes (`store_alert`) and sent
notifications (`send_notifications`). -/
structure EngineState where
  alerts : List Alert
  stored : List Alert
  notified : List Alert
deriving DecidableEq, Repr

/-- The empty engine state (`self.alerts = []` at construction). -/
def initState : EngineState := ⟨[], [], []⟩

/-- The `PerformanceAlert(...)` constructed in `create_alert`
(source lines 404 and 413-421): `alert_id = f"{metric_type}_{source}_{int(time.time())}"`,
`resolved=False`, `resolved_at=None`. -/
def mkAlert (now : ℚ) (mt sev : String) (thr cur : ℚ) (src : String) : Alert :=
  { alert_id := mt ++ "_" ++ src ++ "_" ++ toString now
  , metric_type := mt
  , severity := sev
  , threshold := thr
  , current_value := cur
  , timestamp := now
  , resolved := false
  , resolved_at := none }

/-- `RealTimePerformanceMonitor.create_alert` (source lines 401-427).
The dedup generator
`next((a for a in self.alerts if not a.resolved and a.metric_type == metric_type and a.source == source), None)`
short-circuits: for an alert that is resolved or has a different
`metric_type`, `a.source` is never evaluated; for the first unresolved
alert with the requested `metric_type` it evaluates `a.source`, which
does not exist on `PerformanceAlert`, raising `AttributeError`.  Hence:
if any unresolved alert with this `metric_type` exists the call raises;
otherwise the generator is exhausted, `existing_alert` is `None`, and
the alert is appended, stored and notified. -/
def createAlert (now : ℚ) (st : EngineState) (mt sev : String) (thr cur : ℚ)
    (src : String) : Except AttrError EngineState :=
  if st.alerts.any (fun a => !a.resolved && a.metric_type == mt) then
    Except.error AttrError.attributeError
  else
    let alert := mkAlert now mt sev thr cur src
    Except.ok { alerts := st.alerts ++ [alert]
              , stored := st.stored ++ [alert]
              , notified := st.notified ++ [alert] }

/-- `value >= thresholds.get(key, float('inf'))`: a missing bound never
triggers (a finite float is never `>=` positive infinity). -/
def geOpt (value : ℚ) (bound : Option ℚ) : Bool :=
  match bound with
  | some t => value ≥ t
  | none => false

/-- `RealTimePerformanceMonitor.check_alerts` (source lines 375-399):
critical branch first, then warning, else nothing.  In a taken branch
the bound is present, so `thresholds["critical"]` / `thresholds["warning"]`
is its value (`getD 0` is never the fallback there). -/
def checkAlerts (cfg : List (String × Thresholds)) (now : ℚ) (st : EngineState)
    (mt : String) (value : ℚ) (src : String) : Except AttrError EngineState :=
  match List.lookup mt cfg with
  | none => Except.ok st
  | some thr =>
    if geOpt value thr.critical then
      createAlert now st mt "critical" (thr.critical.getD 0) value src
    else if geOpt value thr.warning then
      createAlert now st mt "warning" (thr.warning.getD 0) value src
    else
      Except.ok st

/-- One alert-engine entry point: either a processed sample routed
through `check_alerts`, or a direct `create_alert` call (endpoint
failures, anomaly hits, predictive alerts). -/
inductive MonOp where
  | sample (now : ℚ) (mt : String) (value : ℚ) (src : String)
  | direct (now : ℚ) (mt sev : String) (thr value : ℚ) (src : String)
deriving DecidableEq, Repr

/-- Dispatch one engine operation. -/
def applyOp (cfg : List (String × Thresholds)) (st : EngineState) :
    MonOp → Except AttrError EngineState
  | .sample now mt v src => checkAlerts cfg now st mt v src
  | .direct now mt sev thr v src => createAlert now st mt sev thr v src

/-- The monitoring loops wrap every engine call in `try/except` and log
the error, so a raised `AttributeError` leaves the state unchanged. -/
def monStep (cfg : List (String × Thresholds)) (st : EngineState)
    (op : MonOp) : EngineState :=
  match applyOp cfg st op with
  | Except.ok st' => st'
  | Except.error _ => st

/-- Run the engine from the empty state over a sequence of samples and
analytics results. -/
def runOps (cfg : List (String × Thresholds)) (ops : List MonOp) : EngineState :=
  ops.foldl (monStep cfg) initState

/-- Number of simultaneously unresolved alerts carrying a given
`metric_type` (the predicate is the one `create_alert`'s dedup check
evaluates before it reaches `a.source`). -/
def openCount (st : EngineState) (mt : String) : Nat :=
  (st.alerts.filter (fun a => !a.resolved && a.metric_type == mt)).length

/-- A concrete reachable-shape state: one open warning alert for
`(cpu_usage, system)` (created at time `0` from a sample of `85`,
warning bound `70`). -/
def cpuWarnAlert : Alert := mkAlert 0 "cpu_usage" "warning" 70 85 "system"

/-- Engine state holding exactly the open `cpu_usage` warning alert. -/
def stOpen : EngineState := ⟨[cpuWarnAlert], [cpuWarnAlert], [cpuWarnAlert]⟩

/-- If `create_alert` returns normally, the bound on the number of
unresolved alerts per metric type is preserved: success requires the
dedup/`AttributeError` scan to have found no unresolved alert with the
requested `metric_type`, and exactly one new unresolved alert (with
that `metric_type`) is appended. -/
theorem createAlert_ok_openCount {now : ℚ} {st : EngineState} {mt' sev : String}
    {thr cur : ℚ} {src : String} {st' : EngineState}
    (h : createAlert now st mt' sev thr cur src = Except.ok st')
    (mt : String) (hle : openCount st mt ≤ 1) : openCount st' mt ≤ 1 := by
  unfold createAlert at h
  by_cases hany : st.alerts.any (fun a => !a.resolved && a.metric_type == mt') = true
  · rw [if_pos hany] at h
    exact absurd h (by simp)
  · rw [if_neg hany] at h
    have hst' : st'.alerts = st.alerts ++ [mkAlert now mt' sev thr cur src] := by
      cases h
      rfl
    have hnil : st.alerts.filter (fun a => !a.resolved && a.metric_type == mt') = [] := by
      rw [List.filter_eq_nil_iff]
      intro a ha hpa
      exact hany (List.any_eq_true.mpr ⟨a, ha, hpa⟩)
    unfold openCount at hle ⊢
    rw [hst', List.filter_append, List.length_append]
    by_cases hmt : mt = mt'
    · subst hmt
      rw [hnil]
      simp [mkAlert]
    · have : (List.filter (fun a => !a.resolved && a.metric_type == mt)
          [mkAlert now mt' sev thr cur src]).length = 0 := by
        simp only [List.length_eq_zero, List.filter_eq_nil_iff]
        intro a ha
        simp only [List.mem_singleton] at ha
        subst ha
        simp [mkAlert]
        intro hcontr
        exact absurd hcontr.symm hmt
      omega

/-- One recovered engine step preserves the per-metric-type bound. -/
theorem monStep_openCount (cfg : List (String × Thresholds)) (st : EngineState)
    (op : MonOp) (mt : String) (hle : openCount st mt ≤ 1) :
    openCount (monStep cfg st op) mt ≤ 1 := by
  unfold monStep
  cases hap : applyOp cfg st op with
  | error _ => exact hle
  | ok st' =>
    cases op with
    | direct now mt' sev thr v src =>
      exact createAlert_ok_openCount (by simpa [applyOp] using hap) mt hle
    | sample now mt' v src =>
      rcases hlk : List.lookup mt' cfg with _ | thr
      · simp only [applyOp, checkAlerts, hlk] at hap
        cases hap
        exact hle
      · simp only [applyOp, checkAlerts, hlk] at hap
        by_cases hc : geOpt v thr.critical = true
        · rw [if_pos hc] at hap
          exact createAlert_ok_openCount hap mt hle
        · rw [if_neg hc] at hap
          by_cases hw : geOpt v thr.warning = true
          · rw [if_pos hw] at hap
            exact createAlert_ok_openCount hap mt hle
          · rw [if_neg hw] at hap
            cases hap
            exact hle

/-- C2: for every sequence of processed samples and analytics results,
and every metric type, the alert state never holds more than one
simultaneously unresolved alert with that metric type.  Since a
`PerformanceAlert` record carries no `source` attribute, every
`(metricType, source)` key refines the metric type, so a fortiori at
most one unresolved alert exists per `(metricType, source)` pair. -/
theorem c2_dedup_invariant (cfg : List (String × Thresholds)) (ops : List MonOp)
    (mt : String) : openCount (runOps cfg ops) mt ≤ 1 := by
  unfold runOps
  have h : ∀ (l : List MonOp) (st : EngineState), openCount st mt ≤ 1 →
      openCount (l.foldl (monStep cfg) st) mt ≤ 1 := by
    intro l
    induction l with
    | nil => intro st h; exact h
    | cons op l ih =>
      intro st h
      exact ih (monStep cfg st op) (monStep_openCount cfg st op mt h)
  exact h ops initState (by simp [openCount, initState])

/-- C1 (evaluating the code at the failing input): with an open
`cpu_usage` warning alert in the state, processing a subsequent
`cpu_usage` sample with value `50 < 70` (the warning bound) leaves the
engine state completely unchanged — `check_alerts` takes no branch, so
no resolution transition occurs, the alert's `resolved` flag stays
`false`, `resolved_at` stays unset, and no new alert is created.  (No
code path in the monitor ever sets `resolved=True`.) -/
theorem c1_below_warning_no_resolution :
    checkAlerts defaultAlertThresholds 1 stOpen "cpu_usage" 50 "system" = Except.ok stOpen
      ∧ cpuWarnAlert.resolved = false ∧ cpuWarnAlert.resolved_at = none :=
  ⟨rfl, rfl, rfl⟩

/-- C3 counterexample: with an open warning alert for
`(cpu_usage, system)`, a sample of `95 ≥ 90` (the critical bound) does
not open or upgrade to a critical alert — the `create_alert` call
raises `AttributeError`, the recovered state is unchanged, and it
contains no critical-severity alert. -/
theorem c3_counterexample :
    checkAlerts defaultAlertThresholds 1 stOpen "cpu_usage" 95 "system" =
        Except.error AttrError.attributeError
      ∧ monStep defaultAlertThresholds stOpen (MonOp.sample 1 "cpu_usage" 95 "system") = stOpen
      ∧ stOpen.alerts.filter (fun a => a.severity == "critical") = [] :=
  ⟨rfl, rfl, rfl⟩

/-- C3 amended: when a sample's value reaches the critical bound and no
unresolved alert for its metric type is open, `check_alerts` opens a
new alert whose severity is `critical` (never `warning`); an already
open alert for the metric type is not upgraded (see the
counterexample). -/
theorem c3_critical_opens_when_no_open_alert
    (cfg : List (String × Thresholds)) (now : ℚ) (st : EngineState)
    (mt : String) (value : ℚ) (src : String) (thr : Thresholds) (c : ℚ)
    (hlk : List.lookup mt cfg = some thr)
    (hc : thr.critical = some c)
    (hv : c ≤ value)
    (hnone : st.alerts.any (fun a => !a.resolved && a.metric_type == mt) = false) :
    checkAlerts cfg now st mt value src =
      Except.ok { alerts := st.alerts ++ [mkAlert now mt "critical" c value src]
                , stored := st.stored ++ [mkAlert now mt "critical" c value src]
                , notified := st.notified ++ [mkAlert now mt "critical" c value src] } := by
  have hgec : geOpt value thr.critical = true := by
    rw [hc]
    simpa [geOpt] using hv
  simp only [checkAlerts, hlk]
  rw [if_pos hgec]
  unfold createAlert
  rw [hnone]
  simp [hc]

/-- Witness for the amended C3 theorem at a concrete input: from the
empty alert state, a `cpu_usage` sample of `95` opens one critical
alert. -/
theorem c3_witness :
    checkAlerts defaultAlertThresholds 0 initState "cpu_usage" 95 "system" =
      Except.ok { alerts := [mkAlert 0 "cpu_usage" "critical" 90 95 "system"]
                , stored := [mkAlert 0 "cpu_usage" "critical" 90 95 "system"]
                , notified := [mkAlert 0 "cpu_usage" "critical" 90 95 "system"] } := by
  have := c3_critical_opens_when_no_open_alert defaultAlertThresholds 0 initState
    "cpu_usage" 95 "system" ⟨some 70, some 90⟩ 90 (by rfl) (by rfl)
    (by norm_num) (by rfl)
  simpa [initState] using this

/-- C10: whenever the alert list contains an unresolved alert whose
`metric_type` equals the requested one, `create_alert` raises
`AttributeError` (the dedup generator evaluates the missing `source`
attribute) and terminates abnormally: the `Except.error` result carries
no new state, so nothing is appended, stored or notified. -/
theorem c10_dedup_attribute_error (now : ℚ) (st : EngineState)
    (mt sev : String) (thr cur : ℚ) (src : String)
    (h : ∃ a ∈ st.alerts, a.resolved = false ∧ a.metric_type = mt) :
    createAlert now st mt sev thr cur src = Except.error AttrError.attributeError := by
  unfold createAlert
  rw [if_pos]
  rcases h with ⟨a, ha, hres, hmt⟩
  exact List.any_eq_true.mpr ⟨a, ha, by simp [hres, hmt]⟩

/-- Witness for C10 at a concrete input: the state holding the open
`cpu_usage` warning alert makes a second `cpu_usage` `create_alert`
call raise `AttributeError`. -/
theorem c10_witness :
    createAlert 1 stOpen "cpu_usage" "critical" 90 95 "system" =
      Except.error AttrError.attributeError :=
  c10_dedup_attribute_error 1 stOpen "cpu_usage" "critical" 90 95 "system"
    ⟨cpuWarnAlert, by simp [stOpen], by simp [cpuWarnAlert, mkAlert], by simp [cpuWarnAlert, mkAlert]⟩

/-- `statistics.mean(values)` (exact rational arithmetic). -/
def mean (values : List ℚ) : ℚ := values.sum / (values.length : ℚ)

/-- The square of `statistics.stdev(values) if len(values) > 1 else 0`
(source line 551): the sample variance with Bessel's `n - 1`
denominator.  The code's `stdev` is `Real.sqrt` of this value; carrying
the variance keeps the definition computable over `ℚ`. -/
def sampleVar (values : List ℚ) : ℚ :=
  if values.length ≤ 1 then 0
  else ((values.map (fun x => (x - mean values) ^ 2)).sum) / ((values.length : ℚ) - 1)

/-- The per-sample firing decision of `detect_anomalies` (source lines
554-557): `z_score = abs((value - mean) / stdev) if stdev > 0 else 0`,
fire iff `z_score > 3`.  With `stdev = √sampleVar`, the guard
`stdev > 0` is `sampleVar > 0` and `z_score > 3` is
`(value - mean)² > 9·sampleVar`; `zFires_iff_real` below proves this
encoding equal to the literal `|value − μ|/σ > 3` over `ℝ`. -/
def zFires (values : List ℚ) (v : ℚ) : Bool :=
  if 0 < sampleVar values then decide (9 * sampleVar values < (v - mean values) ^ 2)
  else false

/-- The recent window (source lines 535-536): metrics whose timestamp
lies within the last hour. -/
def recentOf (buffer : List Metric) (now : ℚ) : List Metric :=
  buffer.filter (fun m => now - 1 < m.timestamp)

/-- The `metrics_by_type[metric_type]` list of values (source lines
538-542): the values of the window's metrics of one type. -/
def windowValues (recent : List Metric) (mt : String) : List ℚ :=
  (recent.filter (fun m => m.metric_type == mt)).map (fun m => m.value)

/-- The `create_alert` invocation issued for one anomalous sample
(source lines 558-565).  The `threshold` argument (`mean + 3·stdev`)
and the f-string message are display-only and not modelled; the fields
below are the ones the dedup key and the claims depend on.  Note the
`source` argument is `metric.source` — the originating sample's source,
not a synthetic `"anomaly"` tag. -/
structure AnomalyHit where
  metric_type : String
  severity : String
  current_value : ℚ
  source : String
deriving DecidableEq, Repr

/-- `RealTimePerformanceMonitor.detect_anomalies` (source lines
532-565): group the last hour's metrics by type (`List.dedup` keeps the
same set of types as Python's insertion-ordered dict), skip types with
fewer than 10 window values, and fire once per window sample whose
z-score exceeds 3. -/
def detectAnomalies (buffer : List Metric) (now : ℚ) : List AnomalyHit :=
  (((recentOf buffer now).map (fun m => m.metric_type)).dedup).flatMap (fun mt =>
    if (windowValues (recentOf buffer now) mt).length < 10 then []
    else ((recentOf buffer now).filter (fun m => m.metric_type == mt)).filterMap (fun m =>
      if zFires (windowValues (recentOf buffer now) mt) m.value then
        some { metric_type := m.metric_type, severity := "warning"
             , current_value := m.value, source := m.source }
      else none))

/-- The sample variance is nonnegative. -/
theorem sampleVar_nonneg (values : List ℚ) : 0 ≤ sampleVar values := by
  unfold sampleVar
  split
  · exact le_refl 0
  · rename_i h
    apply div_nonneg
    · apply List.sum_nonneg
      intro x hx
      rcases List.mem_map.mp hx with ⟨y, _, rfl⟩
      positivity
    · have : 1 < values.length := by omega
      have : (1 : ℚ) < (values.length : ℚ) := by exact_mod_cast this
      linarith

/-- The computable `zFires` decision coincides with the code's literal
z-score test over the reals: it fires exactly when the standard
deviation `√sampleVar` is nonzero and `|value − μ| / σ` exceeds `3`. -/
theorem zFires_iff_real (values : List ℚ) (v : ℚ) :
    zFires values v = true ↔
      (Real.sqrt ((sampleVar values : ℚ) : ℝ) ≠ 0 ∧
        3 < |(v : ℝ) - ((mean values : ℚ) : ℝ)| /
              Real.sqrt ((sampleVar values : ℚ) : ℝ)) := by
  have hq : (0 : ℝ) ≤ ((sampleVar values : ℚ) : ℝ) := by
    exact_mod_cast sampleVar_nonneg values
  by_cases hpos : 0 < sampleVar values
  · have hposR : (0 : ℝ) < ((sampleVar values : ℚ) : ℝ) := by exact_mod_cast hpos
    have hsq : 0 < Real.sqrt ((sampleVar values : ℚ) : ℝ) := Real.sqrt_pos.mpr hposR
    simp only [zFires, if_pos hpos, decide_eq_true_eq]
    constructor
    · intro h
      refine ⟨ne_of_gt hsq, ?_⟩
      rw [lt_div_iff₀ hsq, ← Real.sqrt_sq_eq_abs]
      rw [show (3 : ℝ) * Real.sqrt ((sampleVar values : ℚ) : ℝ) =
            Real.sqrt (9 * ((sampleVar values : ℚ) : ℝ)) by
          rw [show (9 : ℝ) * ((sampleVar values : ℚ) : ℝ) =
                3 ^ 2 * ((sampleVar values : ℚ) : ℝ) by norm_num]
          rw [Real.sqrt_mul (by positivity), Real.sqrt_sq (by norm_num)]]
      apply Real.sqrt_lt_sqrt (by positivity)
      have : ((9 * sampleVar values : ℚ) : ℝ) < (((v - mean values) ^ 2 : ℚ) : ℝ) := by
        exact_mod_cast h
      push_cast at this ⊢
      linarith
    · intro ⟨_, h⟩
      rw [lt_div_iff₀ hsq, ← Real.sqrt_sq_eq_abs] at h
      rw [show (3 : ℝ) * Real.sqrt ((sampleVar values : ℚ) : ℝ) =
            Real.sqrt (9 * ((sampleVar values : ℚ) : ℝ)) by
          rw [show (9 : ℝ) * ((sampleVar values : ℚ) : ℝ) =
                3 ^ 2 * ((sampleVar values : ℚ) : ℝ) by norm_num]
          rw [Real.sqrt_mul (by positivity), Real.sqrt_sq (by norm_num)]] at h
      have h2 := (Real.sqrt_lt_sqrt_iff (by positivity)).mp h
      have : ((9 * sampleVar values : ℚ) : ℝ) < (((v - mean values) ^ 2 : ℚ) : ℝ) := by
        push_cast at h2 ⊢
        linarith
      exact_mod_cast this
  · have h0 : sampleVar values = 0 := le_antisymm (not_lt.mp hpos) (sampleVar_nonneg values)
    simp only [zFires, if_neg hpos]
    constructor
    · intro h
      exact absurd h (by simp)
    · intro ⟨hne, _⟩
      exact absurd (by rw [h0]; simp [Real.sqrt_eq_zero']) hne

/-- Characterization of the anomaly detector's emissions (helper shared
by the claims about `detect_anomalies`). -/
theorem mem_detectAnomalies_iff (buffer : List Metric) (now : ℚ) (r : AnomalyHit) :
    r ∈ detectAnomalies buffer now ↔
      ∃ m ∈ recentOf buffer now,
        r = { metric_type := m.metric_type, severity := "warning"
            , current_value := m.value, source := m.source } ∧
        10 ≤ (windowValues (recentOf buffer now) m.metric_type).length ∧
        Real.sqrt ((sampleVar (windowValues (recentOf buffer now) m.metric_type) : ℚ) : ℝ) ≠ 0 ∧
        3 < |(m.value : ℝ) - ((mean (windowValues (recentOf buffer now) m.metric_type) : ℚ) : ℝ)| /
              Real.sqrt ((sampleVar (windowValues (recentOf buffer now) m.metric_type) : ℚ) : ℝ) := by
  constructor
  · intro hr
    unfold detectAnomalies at hr
    rw [List.mem_flatMap] at hr
    obtain ⟨mt, _, hin⟩ := hr
    by_cases hlen : (windowValues (recentOf buffer now) mt).length < 10
    · rw [if_pos hlen] at hin
      exact absurd hin (List.not_mem_nil r)
    · rw [if_neg hlen] at hin
      rw [List.mem_filterMap] at hin
      obtain ⟨m, hm, hsome⟩ := hin
      rw [List.mem_filter] at hm
      obtain ⟨hmrec, hmty⟩ := hm
      have hmty' : m.metric_type = mt := by simpa using hmty
      by_cases hf : zFires (windowValues (recentOf buffer now) mt) m.value = true
      · rw [if_pos hf] at hsome
        have hre : r = { metric_type := m.metric_type, severity := "warning"
                       , current_value := m.value, source := m.source } := by
          cases hsome
          rfl
        obtain ⟨hσ, hz⟩ := (zFires_iff_real _ _).mp hf
        subst hmty'
        exact ⟨m, hmrec, hre, by omega, hσ, hz⟩
      · rw [if_neg hf] at hsome
        exact absurd hsome (by simp)
  · intro hr
    obtain ⟨m, hmrec, hre, hlen, hσ, hz⟩ := hr
    unfold detectAnomalies
    rw [List.mem_flatMap]
    refine ⟨m.metric_type, ?_, ?_⟩
    · rw [List.mem_dedup, List.mem_map]
      exact ⟨m, hmrec, rfl⟩
    · rw [if_neg (by omega)]
      rw [List.mem_filterMap]
      refine ⟨m, ?_, ?_⟩
      · rw [List.mem_filter]
        exact ⟨hmrec, by simp⟩
      · rw [if_pos ((zFires_iff_real _ _).mpr ⟨hσ, hz⟩), hre]

/-- C4: the anomaly detector fires exactly for the samples of the
last-hour window whose metric type has at least 10 window values and
whose z-score `|value − μ|/σ` exceeds `3` with `σ = √sampleVar ≠ 0`; in
particular it never emits an alert for a metric type with fewer than 10
window samples and never when the standard deviation is zero. -/
theorem c4_anomaly_gating (buffer : List Metric) (now : ℚ) (r : AnomalyHit) :
    r ∈ detectAnomalies buffer now ↔
      ∃ m ∈ recentOf buffer now,
        r = { metric_type := m.metric_type, severity := "warning"
            , current_value := m.value, source := m.source } ∧
        10 ≤ (windowValues (recentOf buffer now) m.metric_type).length ∧
        Real.sqrt ((sampleVar (windowValues (recentOf buffer now) m.metric_type) : ℚ) : ℝ) ≠ 0 ∧
        3 < |(m.value : ℝ) - ((mean (windowValues (recentOf buffer now) m.metric_type) : ℚ) : ℝ)| /
              Real.sqrt ((sampleVar (windowValues (recentOf buffer now) m.metric_type) : ℚ) : ℝ) :=
  mem_detectAnomalies_iff buffer now r

/-- A window sample of `(cpu_usage, system)` with value `0`. -/
def m0 : Metric := ⟨2, "cpu_usage", 0, "percent", "system"⟩

/-- Eleven `cpu_usage` samples from source `"system"` inside the
last-hour window: ten values of `0` and one outlier of `100`
(`μ = 100/11`, `sampleVar = 10000/11`, and the outlier's z-score is
`10/√11 · 11/10 ≈ 3.02 > 3`). -/
def anomalyBuffer : List Metric :=
  [m0, m0, m0, m0, m0, m0, m0, m0, m0, m0, ⟨2, "cpu_usage", 100, "percent", "system"⟩]

/-- C5 counterexample: on `anomalyBuffer` the anomaly detector creates
exactly one alert, and it carries the originating sample's source
`"system"` — not `"anomaly"`.  Its dedup key `(cpu_usage, system)` is
therefore the same key a threshold alert on `cpu_usage` uses. -/
theorem c5_counterexample :
    detectAnomalies anomalyBuffer 2 =
      [{ metric_type := "cpu_usage", severity := "warning"
       , current_value := 100, source := "system" }]
    ∧ ({ metric_type := "cpu_usage", severity := "warning"
       , current_value := 100, source := "system" } : AnomalyHit).source ≠ "anomaly" := by
  constructor
  · norm_num [anomalyBuffer, m0, detectAnomalies, recentOf, windowValues, zFires, sampleVar,
      mean, List.dedup_cons_of_mem, List.dedup_cons_of_not_mem, List.filter,
      List.filterMap_cons, List.filterMap_nil]
  · decide

/-- The least-squares slope of `generate_predictive_alerts` (source
lines 581-591): `slope = (n·Σtv − Σt·Σv) / (n·Σt² − (Σt)²)`, and `0`
when the denominator vanishes. -/
def olsSlope (ts vs : List ℚ) : ℚ :=
  if (ts.length : ℚ) * (ts.map (fun t => t * t)).sum - ts.sum * ts.sum = 0 then 0
  else ((ts.length : ℚ) * (List.zipWith (fun a b => a * b) ts vs).sum - ts.sum * vs.sum) /
        ((ts.length : ℚ) * (ts.map (fun t => t * t)).sum - ts.sum * ts.sum)

/-- The value `generate_predictive_alerts` compares against the
critical threshold (source lines 576-595): the regressor is
`times = (now − timestamp)` in hours — the sample's age, not its
elapsed time — and the projection is
`predicted_value = values[-1] + slope·6` (with `current_value = 0` for
an empty history). -/
def predictedValue (history : List Metric) (now : ℚ) : ℚ :=
  ((history.map (fun m => m.value)).getLast?.getD 0) +
    olsSlope (history.map (fun m => now - m.timestamp)) (history.map (fun m => m.value)) * 6

/-- The `create_alert` invocation issued by `generate_predictive_alerts`
(source lines 601-608); the f-string message is display-only and not
modelled. -/
structure PredAlert where
  metric_type : String
  severity : String
  threshold : ℚ
  current_value : ℚ
  source : String
deriving DecidableEq, Repr

/-- `RealTimePerformanceMonitor.generate_predictive_alerts` for one
metric type (source lines 567-608): skip with fewer than 20 history
points (and on the dead `n == 0` guard), look up the alert config
(`critical` defaulting to `90`), and emit a warning-severity request
with `source="prediction"` when the projected value reaches the
critical threshold. -/
def generatePredictiveFor (cfg : List (String × Thresholds)) (history : List Metric)
    (now : ℚ) (mt : String) : Option PredAlert :=
  if history.length < 20 then none
  else if history.length = 0 then none
  else
    match List.lookup mt cfg with
    | none => none
    | some thr =>
      if thr.critical.getD 90 ≤ predictedValue history now then
        some { metric_type := mt, severity := "warning", threshold := thr.critical.getD 90
             , current_value := predictedValue history now, source := "prediction" }
      else none

/-- C5 amended: a predictive alert always carries the synthetic source
`"prediction"`, but an anomaly alert carries the originating sample's
own source and metric type — so an anomaly alert for a system metric
shares its `(metricType, source)` dedup key with the threshold alerts
on that metric (see the counterexample). -/
theorem c5_amended :
    (∀ (buffer : List Metric) (now : ℚ) (r : AnomalyHit),
        r ∈ detectAnomalies buffer now →
          ∃ m ∈ buffer, r.metric_type = m.metric_type ∧ r.source = m.source) ∧
    (∀ (cfg : List (String × Thresholds)) (history : List Metric) (now : ℚ)
        (mt : String) (r : PredAlert),
        generatePredictiveFor cfg history now mt = some r → r.source = "prediction") := by
  constructor
  · intro buffer now r hr
    obtain ⟨m, hmrec, hre, -, -, -⟩ := (mem_detectAnomalies_iff buffer now r).mp hr
    refine ⟨m, (List.mem_filter.mp hmrec).1, ?_, ?_⟩ <;> rw [hre]
  · intro cfg history now mt r h
    unfold generatePredictiveFor at h
    by_cases h20 : history.length < 20
    · rw [if_pos h20] at h
      exact absurd h (by simp)
    · rw [if_neg h20] at h
      by_cases h0 : history.length = 0
      · rw [if_pos h0] at h
        exact absurd h (by simp)
      · rw [if_neg h0] at h
        rcases hlk : List.lookup mt cfg with _ | thr
        · simp only [hlk] at h
          exact absurd h (by simp)
        · simp only [hlk] at h
          by_cases hcrit : thr.critical.getD 90 ≤ predictedValue history now
          · rw [if_pos hcrit] at h
            cases h
            rfl
          · rw [if_neg hcrit] at h
            exact absurd h (by simp)

/-- A flat 20-sample `cpu_usage` history at value `100` (timestamps all
`0`): the regression denominator vanishes, so `slope = 0` and the
projected value is the last observation, `100 ≥ 90`. -/
def predHistory : List Metric :=
  [⟨0, "cpu_usage", 100, "percent", "system"⟩, ⟨0, "cpu_usage", 100, "percent", "system"⟩,
   ⟨0, "cpu_usage", 100, "percent", "system"⟩, ⟨0, "cpu_usage", 100, "percent", "system"⟩,
   ⟨0, "cpu_usage", 100, "percent", "system"⟩, ⟨0, "cpu_usage", 100, "percent", "system"⟩,
   ⟨0, "cpu_usage", 100, "percent", "system"⟩, ⟨0, "cpu_usage", 100, "percent", "system"⟩,
   ⟨0, "cpu_usage", 100, "percent", "system"⟩, ⟨0, "cpu_usage", 100, "percent", "system"⟩,
   ⟨0, "cpu_usage", 100, "percent", "system"⟩, ⟨0, "cpu_usage", 100, "percent", "system"⟩,
   ⟨0, "cpu_usage", 100, "percent", "system"⟩, ⟨0, "cpu_usage", 100, "percent", "system"⟩,
   ⟨0, "cpu_usage", 100, "percent", "system"⟩, ⟨0, "cpu_usage", 100, "percent", "system"⟩,
   ⟨0, "cpu_usage", 100, "percent", "system"⟩, ⟨0, "cpu_usage", 100, "percent", "system"⟩,
   ⟨0, "cpu_usage", 100, "percent", "system"⟩, ⟨0, "cpu_usage", 100, "percent", "system"⟩]

/-- Witness for the amended C5 theorem: its anomaly part applied to the
concrete `anomalyBuffer` emission, and its prediction part applied to
the concrete `predHistory` emission. -/
theorem c5_witness :
    (∃ m ∈ anomalyBuffer,
        ({ metric_type := "cpu_usage", severity := "warning"
         , current_value := 100, source := "system" } : AnomalyHit).metric_type = m.metric_type ∧
        ({ metric_type := "cpu_usage", severity := "warning"
         , current_value := 100, source := "system" } : AnomalyHit).source = m.source) ∧
    ({ metric_type := "cpu_usage", severity := "warning", threshold := 90
     , current_value := 100, source := "prediction" } : PredAlert).source = "prediction" := by
  constructor
  · refine c5_amended.1 anomalyBuffer 2 _ ?_
    norm_num [anomalyBuffer, m0, detectAnomalies, recentOf, windowValues, zFires, sampleVar,
      mean, List.dedup_cons_of_mem, List.dedup_cons_of_not_mem, List.filter,
      List.filterMap_cons, List.filterMap_nil]
  · refine c5_amended.2 defaultAlertThresholds predHistory 0 "cpu_usage" _ ?_
    norm_num [predHistory, generatePredictiveFor, defaultAlertThresholds, List.lookup,
      predictedValue, olsSlope]

/-- C6: the trend predictor emits nothing for a metric type with fewer
than 20 historical points, and any alert it does emit has severity
`warning`, never `critical`. -/
theorem c6_prediction_gating (cfg : List (String × Thresholds)) (history : List Metric)
    (now : ℚ) (mt : String) :
    (history.length < 20 → generatePredictiveFor cfg history now mt = none) ∧
    (∀ r, generatePredictiveFor cfg history now mt = some r → r.severity = "warning") := by
  constructor
  · intro h20
    unfold generatePredictiveFor
    rw [if_pos h20]
  · intro r h
    unfold generatePredictiveFor at h
    by_cases h20 : history.length < 20
    · rw [if_pos h20] at h
      exact absurd h (by simp)
    · rw [if_neg h20] at h
      by_cases h0 : history.length = 0
      · rw [if_pos h0] at h
        exact absurd h (by simp)
      · rw [if_neg h0] at h
        rcases hlk : List.lookup mt cfg with _ | thr
        · simp only [hlk] at h
          exact absurd h (by simp)
        · simp only [hlk] at h
          by_cases hcrit : thr.critical.getD 90 ≤ predictedValue history now
          · rw [if_pos hcrit] at h
            cases h
            rfl
          · rw [if_neg hcrit] at h
            exact absurd h (by simp)

/-- Witness for C6 at concrete inputs: a 2-sample history produces no
prediction, and the emission on the 20-sample `predHistory` has
severity `warning`. -/
theorem c6_witness :
    generatePredictiveFor defaultAlertThresholds [m0, m0] 0 "cpu_usage" = none ∧
    ({ metric_type := "cpu_usage", severity := "warning", threshold := 90
     , current_value := 100, source := "prediction" } : PredAlert).severity = "warning" := by
  constructor
  · exact (c6_prediction_gating defaultAlertThresholds [m0, m0] 0 "cpu_usage").1 (by simp)
  · refine (c6_prediction_gating defaultAlertThresholds predHistory 0 "cpu_usage").2 _ ?_
    norm_num [predHistory, generatePredictiveFor, defaultAlertThresholds, List.lookup,
      predictedValue, olsSlope]

/-- Reflecting the regressor `t ↦ c - t` turns its sum into
`c·n − Σt`. -/
theorem sum_map_const_sub (c : ℚ) (ts : List ℚ) :
    (ts.map (fun t => c - t)).sum = c * ts.length - ts.sum := by
  induction ts with
  | nil => simp
  | cons t ts ih =>
    simp only [List.map_cons, List.sum_cons, ih, List.length_cons]
    push_cast
    ring

/-- Reflecting the regressor turns its sum of squares into
`c²·n − 2c·Σt + Σt²`. -/
theorem sum_map_sq_const_sub (c : ℚ) (ts : List ℚ) :
    ((ts.map (fun t => c - t)).map (fun t => t * t)).sum
      = c * c * ts.length - 2 * c * ts.sum + (ts.map (fun t => t * t)).sum := by
  induction ts with
  | nil => simp
  | cons t ts ih =>
    simp only [List.map_cons, List.sum_cons, ih, List.length_cons]
    push_cast
    ring

/-- Reflecting the regressor turns the cross sum into `c·Σv − Σtv`. -/
theorem sum_zipWith_mul_const_sub (c : ℚ) :
    ∀ (ts vs : List ℚ), ts.length = vs.length →
      (List.zipWith (fun a b => a * b) (ts.map (fun t => c - t)) vs).sum
        = c * vs.sum - (List.zipWith (fun a b => a * b) ts vs).sum := by
  intro ts
  induction ts with
  | nil =>
    intro vs h
    have hvs : vs = [] := List.length_eq_zero.mp h.symm
    subst hvs
    simp
  | cons t ts ih =>
    intro vs h
    cases vs with
    | nil => simp at h
    | cons v vs =>
      simp only [List.map_cons, List.zipWith_cons_cons, List.sum_cons,
        ih vs (by simpa using h)]
      ring

/-- Reversing the direction of the regressor (`t ↦ c − t`, e.g. elapsed
time versus age) negates the least-squares slope and leaves the
denominator unchanged. -/
theorem olsSlope_reflect (c : ℚ) (ts vs : List ℚ) (h : ts.length = vs.length) :
    olsSlope (ts.map (fun t => c - t)) vs = - olsSlope ts vs := by
  unfold olsSlope
  rw [List.length_map, sum_map_const_sub, sum_map_sq_const_sub,
    sum_zipWith_mul_const_sub c ts vs h]
  have hd : (ts.length : ℚ) * (c * c * ts.length - 2 * c * ts.sum + (ts.map (fun t => t * t)).sum)
      - (c * ts.length - ts.sum) * (c * ts.length - ts.sum)
      = (ts.length : ℚ) * (ts.map (fun t => t * t)).sum - ts.sum * ts.sum := by ring
  have hn : (ts.length : ℚ) * (c * vs.sum - (List.zipWith (fun a b => a * b) ts vs).sum)
      - (c * ts.length - ts.sum) * vs.sum
      = -((ts.length : ℚ) * (List.zipWith (fun a b => a * b) ts vs).sum - ts.sum * vs.sum) := by
    ring
  rw [hd, hn]
  by_cases hzero : (ts.length : ℚ) * (ts.map (fun t => t * t)).sum - ts.sum * ts.sum = 0
  · rw [if_pos hzero, if_pos hzero]
    simp
  · rw [if_neg hzero, if_neg hzero]
    exact neg_div _ _

/-- The spec's projection (§4.5), stated in its own words: fit the OLS
line `value = a + b·t` with `t` elapsed time in hours and project
`predicted = a + b·(t_now + 6)`.  The elapsed-time origin is immaterial:
shifting `t` by any constant changes `a` by the opposite amount, so the
projected value is well defined; absolute timestamps are used here. -/
def specPredictedValue (history : List Metric) (now : ℚ) : ℚ :=
  (if (history.length : ℚ) = 0 then 0
   else ((history.map (fun m => m.value)).sum -
          olsSlope (history.map (fun m => m.timestamp)) (history.map (fun m => m.value)) *
            (history.map (fun m => m.timestamp)).sum) / (history.length : ℚ)) +
    olsSlope (history.map (fun m => m.timestamp)) (history.map (fun m => m.value)) * (now + 6)

/-- Three samples taken at hours `0, 1, 2` with values `0, 1, 2`. -/
def hist7 : List Metric :=
  [⟨0, "cpu_usage", 0, "percent", "system"⟩,
   ⟨1, "cpu_usage", 1, "percent", "system"⟩,
   ⟨2, "cpu_usage", 2, "percent", "system"⟩]

/-- C7 counterexample: for the linearly increasing history `hist7` at
`now = 2`, the fitted spec line `value = a + b·t` is `a = 0, b = 1`, so
`a + b·(t_now + 6) = 8`, but the code's projected value is `−4`: it
regresses against the sample's age (`now − timestamp`), obtaining slope
`−1`, and adds `6` times that slope to the last observed value. -/
theorem c7_counterexample :
    predictedValue hist7 2 = -4 ∧ specPredictedValue hist7 2 = 8 ∧
      predictedValue hist7 2 ≠ specPredictedValue hist7 2 := by
  norm_num [hist7, predictedValue, specPredictedValue, olsSlope]

/-- C7 amended: the trend predictor's regression slope is taken against
hours-before-now (the sample's age), which is exactly the negation of
the OLS slope against elapsed time, and the value compared against the
critical threshold is `last observed value − 6·(forward slope)` — not
the fitted line evaluated at `t_now + 6`. -/
theorem c7_amended (history : List Metric) (now : ℚ) :
    olsSlope (history.map (fun m => now - m.timestamp)) (history.map (fun m => m.value))
      = - olsSlope (history.map (fun m => m.timestamp)) (history.map (fun m => m.value))
    ∧ predictedValue history now
      = ((history.map (fun m => m.value)).getLast?.getD 0)
        - 6 * olsSlope (history.map (fun m => m.timestamp)) (history.map (fun m => m.value)) := by
  have hmap : history.map (fun m => now - m.timestamp)
      = (history.map (fun m => m.timestamp)).map (fun t => now - t) := by
    rw [List.map_map]
    rfl
  have hlen : (history.map (fun m => m.timestamp)).length
      = (history.map (fun m => m.value)).length := by simp
  have h1 : olsSlope (history.map (fun m => now - m.timestamp))
        (history.map (fun m => m.value))
      = - olsSlope (history.map (fun m => m.timestamp)) (history.map (fun m => m.value)) := by
    rw [hmap, olsSlope_reflect _ _ _ hlen]
  refine ⟨h1, ?_⟩
  unfold predictedValue
  rw [h1]
  ring

/-- Outcome of the `requests.get` call in `check_endpoint`: a response
with a status code and elapsed milliseconds, a
`requests.exceptions.Timeout`, or any other exception (connection
failure). -/
inductive HttpResult where
  | ok (status : Nat) (elapsed_ms : ℚ)
  | timeout
  | connError
deriving DecidableEq, Repr

/-- One `add_metric` call as issued by `check_endpoint` (timestamp is
taken inside `add_metric`; the `metadata` dict is display-only and not
modelled). -/
structure EmittedMetric where
  metric_type : String
  value : ℚ
  unit : String
  source : String
deriving DecidableEq, Repr

/-- Result of one `check_endpoint` call: the samples it recorded, the
engine state after its alert calls, and whether it terminated
abnormally.  `raised = true` models an exception escaping
`check_endpoint` — this happens only when `create_alert` raises
`AttributeError` inside the `except Timeout:` handler, since an
exception raised in one `except` clause is not caught by the sibling
`except Exception` clause. -/
structure EndpointResult where
  metrics : List EmittedMetric
  state : EngineState
  raised : Bool
deriving DecidableEq, Repr

/-- `RealTimePerformanceMonitor.check_endpoint` (source lines 279-326),
with the alert-engine calls executed against the current engine state.
On a response: the `response_time` and `availability` samples are
recorded first; with `status >= 400` a direct critical `availability`
`create_alert` follows (with the *default* source `"system"` — the call
passes no source argument), then `check_alerts` on the response time —
these run inside the `try` block, so an `AttributeError` from either is
caught by the generic `except Exception` handler (state keeps whatever
was committed before the raise; the rest of the `try` block is skipped)
and the check returns normally.  On `Timeout`: no sample is recorded
and the critical `availability` `create_alert` runs inside the
`except Timeout:` handler — if it raises `AttributeError`, the
exception escapes `check_endpoint` (`raised = true`).  On any other
exception (connection failure): the error is only logged. -/
def checkEndpoint (cfg : List (String × Thresholds)) (now : ℚ) (name : String)
    (res : HttpResult) (st : EngineState) : EndpointResult :=
  match res with
  | .ok status ms =>
      let metrics : List EmittedMetric :=
        [ { metric_type := "response_time", value := ms, unit := "ms", source := name }
        , { metric_type := "availability", value := if status < 400 then 100 else 0
          , unit := "percent", source := name } ]
      if 400 ≤ status then
        match createAlert now st "availability" "critical" 100 0 "system" with
        | Except.error _ => ⟨metrics, st, false⟩
        | Except.ok st1 =>
          match checkAlerts cfg now st1 "response_time" ms name with
          | Except.error _ => ⟨metrics, st1, false⟩
          | Except.ok st2 => ⟨metrics, st2, false⟩
      else
        match checkAlerts cfg now st "response_time" ms name with
        | Except.error _ => ⟨metrics, st, false⟩
        | Except.ok st1 => ⟨metrics, st1, false⟩
  | .timeout =>
      match createAlert now st "availability" "critical" 100 0 "system" with
      | Except.error _ => ⟨[], st, true⟩
      | Except.ok st1 => ⟨[], st1, false⟩
  | .connError => ⟨[], st, false⟩

/-- One pass of the `monitor_web_endpoints` loop over the configured
endpoints (source lines 266-277): the endpoints are checked in order,
threading the engine state; if a check raises (escaped
`AttributeError`), the tick-level `except Exception` catches it and the
remaining endpoints of this pass are skipped (the `while` loop resumes
at the next tick). -/
def webTick (cfg : List (String × Thresholds)) (now : ℚ) (st : EngineState) :
    List (String × HttpResult) → List EmittedMetric × EngineState
  | [] => ([], st)
  | e :: rest =>
    let r := checkEndpoint cfg now e.1 e.2 st
    if r.raised then (r.metrics, r.state)
    else
      let p := webTick cfg now r.state rest
      (r.metrics ++ p.1, p.2)

/-- C8 counterexample: an endpoint check that times out records no
sample at all — in particular no `availability = 0` sample — and a
connection failure records nothing and raises no alert either. -/
theorem c8_counterexample :
    (checkEndpoint defaultAlertThresholds 0 "api" HttpResult.timeout initState).metrics = []
      ∧ (checkEndpoint defaultAlertThresholds 0 "api" HttpResult.connError initState).metrics = [] :=
  ⟨rfl, rfl⟩

/-- C8 amended: a timeout or connection failure records no availability
sample (nothing at all).  A connection failure is only logged: state
unchanged, the check returns normally and the loop continues.  A
timeout attempts one critical `availability` alert with the default
source `"system"`: when no unresolved `availability` alert exists it is
created and the check returns normally, but when one exists (the steady
state, since resolution is unimplemented) the `create_alert` call
raises `AttributeError` out of the `Timeout` handler — the check
terminates abnormally with the state unchanged and the remaining
endpoints of that tick are skipped, recording nothing. -/
theorem c8_amended (cfg : List (String × Thresholds)) (now : ℚ) (name : String)
    (st : EngineState) (rest : List (String × HttpResult)) :
    (checkEndpoint cfg now name HttpResult.timeout st).metrics = []
    ∧ checkEndpoint cfg now name HttpResult.connError st = ⟨[], st, false⟩
    ∧ (st.alerts.any (fun a => !a.resolved && a.metric_type == "availability") = false →
        checkEndpoint cfg now name HttpResult.timeout st =
          ⟨[], { alerts := st.alerts ++ [mkAlert now "availability" "critical" 100 0 "system"]
               , stored := st.stored ++ [mkAlert now "availability" "critical" 100 0 "system"]
               , notified := st.notified ++ [mkAlert now "availability" "critical" 100 0 "system"] }
          , false⟩)
    ∧ ((∃ a ∈ st.alerts, a.resolved = false ∧ a.metric_type = "availability") →
        checkEndpoint cfg now name HttpResult.timeout st = ⟨[], st, true⟩
        ∧ webTick cfg now st ((name, HttpResult.timeout) :: rest) = ([], st)) := by
  refine ⟨?_, rfl, ?_, ?_⟩
  · show (checkEndpoint cfg now name HttpResult.timeout st).metrics = []
    simp only [checkEndpoint]
    cases createAlert now st "availability" "critical" 100 0 "system" <;> rfl
  · intro hnone
    simp only [checkEndpoint, createAlert, hnone, Bool.false_eq_true, if_false]
  · intro hex
    have herr : createAlert now st "availability" "critical" 100 0 "system" =
        Except.error AttrError.attributeError := by
      unfold createAlert
      rw [if_pos]
      rcases hex with ⟨a, ha, hres, hmt⟩
      exact List.any_eq_true.mpr ⟨a, ha, by simp [hres, hmt]⟩
    have hend : checkEndpoint cfg now name HttpResult.timeout st = ⟨[], st, true⟩ := by
      simp only [checkEndpoint, herr]
    refine ⟨hend, ?_⟩
    simp [webTick, hend]

/-- Python's `lst[-C:]` slice: for `C = 0` the slice degenerates to
`lst[0:]` — the whole list — and otherwise it is the last `C`
elements. -/
def pythonTakeLast (C : Nat) (l : List Metric) : List Metric :=
  if C = 0 then l else l.drop (l.length - C)

/-- The buffer update of `add_metric` (source lines 328-349): append
the new metric, then if the buffer exceeds `buffer_size` keep
`self.metrics_buffer[-buffer_size:]`. -/
def pushMetric (C : Nat) (buf : List Metric) (m : Metric) : List Metric :=
  if C < (buf ++ [m]).length then pythonTakeLast C (buf ++ [m]) else buf ++ [m]

/-- For a positive capacity the buffer always holds the most recent
`min N C` samples in insertion order. -/
theorem foldl_pushMetric_drop (C : Nat) (hC : 0 < C) :
    ∀ ms : List Metric, List.foldl (pushMetric C) [] ms = ms.drop (ms.length - C) := by
  intro ms
  induction ms using List.reverseRecOn with
  | nil => simp
  | append_singleton ms m ih =>
    rw [List.foldl_concat, ih]
    by_cases hk : ms.length < C
    · have h1 : ms.length - C = 0 := Nat.sub_eq_zero_of_le (le_of_lt hk)
      have h2 : (ms ++ [m]).length - C = 0 := by
        simp only [List.length_append, List.length_singleton]
        omega
      unfold pushMetric
      rw [h1, List.drop_zero,
        if_neg (by simp only [List.length_append, List.length_singleton]; omega), h2,
        List.drop_zero]
    · have hCk : C ≤ ms.length := le_of_not_lt hk
      have hlen : (ms.drop (ms.length - C)).length = C := by
        rw [List.length_drop]
        omega
      unfold pushMetric pythonTakeLast
      rw [if_pos (by simp only [List.length_append, hlen, List.length_singleton]; omega),
        if_neg (by omega : ¬ C = 0)]
      have hblen : (ms.drop (ms.length - C) ++ [m]).length - C = 1 := by
        simp only [List.length_append, hlen, List.length_singleton]
        omega
      rw [hblen, List.drop_append_of_le_length (by omega), List.drop_drop,
        List.drop_append_of_le_length
          (by simp only [List.length_append, List.length_singleton]; omega)]
      have : ms.length - C + 1 = (ms ++ [m]).length - C := by
        simp only [List.length_append, List.length_singleton]
        omega
      rw [this]

/-- C9 counterexample: with capacity `C = 0` the claim fails — after one
insert (`N = 1 > C`) the buffer still holds that sample rather than the
`0` most recent samples, because Python's `lst[-0:]` is the whole list
and the trim never shrinks the buffer. -/
theorem c9_counterexample :
    List.foldl (pushMetric 0) [] [m0] = [m0]
      ∧ List.foldl (pushMetric 0) [] [m0] ≠ [] :=
  ⟨rfl, by simp [pushMetric, pythonTakeLast]⟩

/-- C9 amended: for every positive buffer capacity `C` and every
sequence of `N > C` inserted samples, the buffer afterwards holds
exactly the `C` most recently inserted samples in insertion order. -/
theorem c9_amended (C : Nat) (hC : 0 < C) (ms : List Metric) (_hN : C < ms.length) :
    List.foldl (pushMetric C) [] ms = ms.drop (ms.length - C) :=
  foldl_pushMetric_drop C hC ms

/-- Witness for the amended C9 theorem: capacity `2`, three inserts,
buffer ends as the last two samples in order. -/
theorem c9_witness :
    List.foldl (pushMetric 2) [] [m0, m0, ⟨2, "cpu_usage", 100, "percent", "system"⟩] =
      [m0, ⟨2, "cpu_usage", 100, "percent", "system"⟩] := by
  have h := c9_amended 2 (by norm_num) [m0, m0, ⟨2, "cpu_usage", 100, "percent", "system"⟩]
    (by norm_num)
  simpa using h

/-- An open (unresolved) critical `availability` alert. -/
def availAlert : Alert := mkAlert 0 "availability" "critical" 100 0 "system"

/-- Engine state holding exactly the open `availability` alert — the
steady state after any availability alert has been created, since
resolution is unimplemented. -/
def stAvail : EngineState := ⟨[availAlert], [availAlert], [availAlert]⟩

/-- Witness for the amended C8 theorem at concrete inputs: from the
empty state a timeout creates the availability alert and returns
normally; from the steady state `stAvail` the same timeout terminates
abnormally with the state unchanged, and a tick whose first endpoint is
that timeout records nothing — the second endpoint (a healthy `200`
response) is skipped. -/
theorem c8_witness :
    checkEndpoint defaultAlertThresholds 1 "api" HttpResult.timeout initState =
      ⟨[], { alerts := [mkAlert 1 "availability" "critical" 100 0 "system"]
           , stored := [mkAlert 1 "availability" "critical" 100 0 "system"]
           , notified := [mkAlert 1 "availability" "critical" 100 0 "system"] }, false⟩
    ∧ checkEndpoint defaultAlertThresholds 1 "api" HttpResult.timeout stAvail =
        ⟨[], stAvail, true⟩
    ∧ webTick defaultAlertThresholds 1 stAvail
        [("api", HttpResult.timeout), ("website", HttpResult.ok 200 5)] = ([], stAvail) := by
  refine ⟨?_, ?_, ?_⟩
  · have h := (c8_amended defaultAlertThresholds 1 "api" initState []).2.2.1 rfl
    simpa [initState] using h
  · exact ((c8_amended defaultAlertThresholds 1 "api" stAvail
      [("website", HttpResult.ok 200 5)]).2.2.2
      ⟨availAlert, by simp [stAvail], by simp [availAlert, mkAlert],
        by simp [availAlert, mkAlert]⟩).1
  · exact ((c8_amended defaultAlertThresholds 1 "api" stAvail
      [("website", HttpResult.ok 200 5)]).2.2.2
      ⟨availAlert, by simp [stAvail], by simp [availAlert, mkAlert],
        by simp [availAlert, mkAlert]⟩).2
